import Mathlib

/-!
Shallow embedding of the CausalPy experiment-orchestration layer
(`src/causalpy/experiments.py` and `src/causalpy/expt_prepostnegd.py`),
together with theorems checking the natural-language specification
against it.

Conventions of the embedding:
* a pandas DataFrame row is a list of (column-name, cell-value) pairs;
* an indexed DataFrame (for `PrePostFit`) is a list of (index, row) pairs,
  the index being any linearly ordered type (instantiated at ℚ);
* numpy floats are modelled as ℚ;
* Python exceptions become an `Except PyError` result;
* the patsy design-matrix builder (an external collaborator of the
  orchestrators) is modelled from its contract in the spec: a design info
  records one column spec per design column, derived once from the fitting
  dataframe, and can be reapplied to any dataframe.
-/

namespace CausalPy

/-- A cell value of a dataframe column: a number or a boolean
(the two codings accepted for group indicators). -/
inductive Val where
  | num (q : ℚ)
  | boolean (b : Bool)
deriving DecidableEq, Repr

/-- Numeric coercion of a cell value, as numpy applies to booleans. -/
def Val.toRat : Val → ℚ
  | num q => q
  | boolean b => if b then 1 else 0

/-- Rendering of a cell value inside a patsy column name such as
`C(group)[T.1]`. -/
def Val.render : Val → String
  | num q => if q.den == 1 then toString q.num else toString q.num ++ "/" ++ toString q.den
  | boolean b => if b then "True" else "False"

/-- A dataframe row: association list from column names to cell values. -/
abbrev Row := List (String × Val)

/-- Column access `row[c]`; absent columns read as 0 (column presence is
out of scope of the claims). -/
def Row.getCol (r : Row) (c : String) : Val :=
  match r.find? (fun kv => kv.1 == c) with
  | some kv => kv.2
  | none => Val.num 0

/-- A whole column of an (unindexed) dataframe. -/
def column (data : List Row) (c : String) : List Val :=
  data.map (fun r => r.getCol c)

/-- A whole column of an (unindexed) dataframe, numerically coerced. -/
def columnRat (data : List Row) (c : String) : List ℚ :=
  (column data c).map Val.toRat

/-- Python exception values surfaced by the orchestrators. -/
inductive PyError where
  | valueError (msg : String)
  | dataException (msg : String)
  | notImplementedError (msg : String)
  | nameError (msg : String)
  | frozenInstanceError (msg : String)
deriving DecidableEq, Repr

/-- `data[data.index < treatment_time]`
(src/causalpy/experiments.py:55). -/
def datapre {ι α : Type} [LinearOrder ι] (data : List (ι × α))
    (treatment_time : ι) : List (ι × α) :=
  data.filter (fun row => decide (row.1 < treatment_time))

/-- `data[data.index >= treatment_time]`
(src/causalpy/experiments.py:56). -/
def datapost {ι α : Type} [LinearOrder ι] (data : List (ι × α))
    (treatment_time : ι) : List (ι × α) :=
  data.filter (fun row => decide (treatment_time ≤ row.1))

/-- Worker for `uniqueFirst`: keeps the elements not yet seen. -/
def uniqueFirstAux {α : Type} [DecidableEq α] (seen : List α) :
    List α → List α
  | [] => []
  | x :: xs =>
    if x ∈ seen then uniqueFirstAux seen xs
    else x :: uniqueFirstAux (x :: seen) xs

/-- Distinct values of a list in order of first appearance
(pandas `Series.unique`). -/
def uniqueFirst {α : Type} [DecidableEq α] (l : List α) : List α :=
  uniqueFirstAux [] l

/-- Modelled from the spec: `causalpy.utils._is_variable_dummy_coded`
(not under src/). Spec §4.2 / §8: the group column must be "exactly
binary/dummy-coded (exactly two distinct values, coded as 0/1 or
boolean)", accepting exactly the value sets `{0,1}` or `{False,True}`. -/
def _is_variable_dummy_coded (col : List Val) : Bool :=
  (uniqueFirst col).length == 2 &&
    ((uniqueFirst col).all (fun v => v == Val.num 0 || v == Val.num 1) ||
     (uniqueFirst col).all (fun v => v == Val.boolean false || v == Val.boolean true))

/-- Substring test on character lists, modelling Python's `in` on strings. -/
def containsSub (hay needle : List Char) : Bool :=
  needle.isPrefixOf hay ||
    match hay with
    | [] => false
    | _ :: t => containsSub t needle

/-- Substring test on strings: `needle in hay` in Python. -/
def strContains (hay needle : String) : Bool :=
  containsSub hay.toList needle.toList

/-- `PrePostNEGD._get_treatment_effect_coeff`
(src/causalpy/expt_prepostnegd.py:155-166): the first label, in label
order, that contains the group variable's name and does not contain ":";
`none` models the `NameError` raised when no label matches. -/
def _get_treatment_effect_coeff (group_variable_name : String)
    (labels : List String) : Option String :=
  labels.find? (fun label =>
    strContains label group_variable_name && !(strContains label ":"))

/-- A term of a model formula's right-hand side. -/
inductive Term where
  | intercept
  | num (col : String)
  | cat (col : String)
deriving DecidableEq, Repr

/-- A model formula `lhs ~ rhs`. -/
structure Formula where
  lhs : String
  rhs : List Term
deriving DecidableEq, Repr

/-- One column of a design matrix, as recorded in design-info metadata:
an intercept, a numeric covariate, or a treatment-coded indicator for one
level of a categorical covariate. -/
inductive ColSpec where
  | interceptCol
  | numCol (col : String)
  | catLevel (col : String) (level : Val)
deriving DecidableEq, Repr

/-- The patsy name of a design column. -/
def ColSpec.name : ColSpec → String
  | interceptCol => "Intercept"
  | numCol c => c
  | catLevel c ℓ => "C(" ++ c ++ ")[T." ++ ℓ.render ++ "]"

/-- Evaluation of one design column on one dataframe row. -/
def ColSpec.eval : ColSpec → Row → ℚ
  | interceptCol, _ => 1
  | numCol c, r => (r.getCol c).toRat
  | catLevel c ℓ, r => if r.getCol c = ℓ then 1 else 0

/-- Design-info metadata: the ordered list of design columns.
Modelled from the spec's design-matrix builder contract (§6): opaque
per-side metadata that, reapplied to a new dataframe, reproduces an
identically-encoded covariate matrix. -/
structure DesignInfo where
  column_specs : List ColSpec
deriving DecidableEq, Repr

/-- `design_info.column_names` of patsy. -/
def DesignInfo.column_names (di : DesignInfo) : List String :=
  di.column_specs.map ColSpec.name

/-- The distinct levels of a categorical covariate observed in the
fitting dataframe. -/
def observedLevels (c : String) (df : List Row) : List Val :=
  uniqueFirst (column df c)

/-- Modelled from the spec: patsy `dmatrices` metadata derivation (§6).
Each formula term contributes design columns; a categorical term
contributes one treatment-coded indicator per observed level of the
fitting dataframe except the first (reference) level, so the encoding
depends only on levels observed in the fitting dataframe. -/
def deriveDesignInfo (terms : List Term) (df : List Row) : DesignInfo :=
  ⟨terms.flatMap (fun t =>
    match t with
    | Term.intercept => [ColSpec.interceptCol]
    | Term.num c => [ColSpec.numCol c]
    | Term.cat c => ((observedLevels c df).drop 1).map (ColSpec.catLevel c))⟩

/-- The design-matrix row that recorded metadata produces for one
dataframe row: one entry per recorded column spec, in recorded order. -/
def rowFor (di : DesignInfo) (r : Row) : List ℚ :=
  di.column_specs.map (fun cs => cs.eval r)

/-- Modelled from the spec: patsy `build_design_matrices` (§6) — reapply
recorded design-info metadata to a (possibly new) dataframe. -/
def build_design_matrix (di : DesignInfo) (df : List Row) : List (List ℚ) :=
  df.map (rowFor di)

/-- Capability class of a fitted model: `BayesianModel`/`PyMCModel`
instances, `ScikitLearnModel` instances, or anything else. -/
inductive ModelClass where
  | bayesian
  | sklearn
  | other
deriving DecidableEq, Repr

/-- The `COORDS` dictionary passed to a Bayesian fit. -/
structure Coords where
  coeffs : List String
  obs_indx : List ℕ
deriving DecidableEq, Repr

/-- The observable shape of the single `model.fit` call an orchestrator
makes: with or without coordinate labels. -/
inductive FitCall where
  | withCoords (X : List (List ℚ)) (y : List ℚ) (coords : Coords)
  | noCoords (X : List (List ℚ)) (y : List ℚ)
deriving DecidableEq, Repr

/-- The model abstraction as the `PrePostFit` orchestrator consumes it:
a capability class plus point-prediction and scoring functions
(collaborators per spec §1/§6). -/
structure Model where
  kind : ModelClass
  predictRow : List ℚ → ℚ
  scoreFn : List (List ℚ) → List ℚ → ℚ

/-- Modelled from the spec: `model.calculate_impact` (§6 contract):
elementwise observed − predicted. -/
def calculate_impact (observed predicted : List ℚ) : List ℚ :=
  List.zipWith (fun o p => o - p) observed predicted

/-- Running sums of a list starting from an accumulator. -/
def cumsumFrom (acc : ℚ) : List ℚ → List ℚ
  | [] => []
  | x :: xs => (acc + x) :: cumsumFrom (acc + x) xs

/-- Modelled from the spec: `model.calculate_cumulative_impact`
(§6 contract): running sum of the impact array in index order. -/
def calculate_cumulative_impact (impact : List ℚ) : List ℚ :=
  cumsumFrom 0 impact

/-- Rows of `datapre`, stripped of the index. -/
def preRows (data : List (ℚ × Row)) (t : ℚ) : List Row :=
  (datapre data t).map Prod.snd

/-- Rows of `datapost`, stripped of the index. -/
def postRows (data : List (ℚ × Row)) (t : ℚ) : List Row :=
  (datapost data t).map Prod.snd

/-- `self._x_design_info` of `PrePostFit`
(src/causalpy/experiments.py:61-64): design metadata recorded from the
pre-intervention dataframe only. -/
def prePostFit_x_design_info (f : Formula) (data : List (ℚ × Row)) (t : ℚ) :
    DesignInfo :=
  deriveDesignInfo f.rhs (preRows data t)

/-- `self.labels` of `PrePostFit` (src/causalpy/experiments.py:65). -/
def prePostFit_labels (f : Formula) (data : List (ℚ × Row)) (t : ℚ) :
    List String :=
  (prePostFit_x_design_info f data t).column_names

/-- `self.pre_X` of `PrePostFit` (src/causalpy/experiments.py:66). -/
def prePostFit_pre_X (f : Formula) (data : List (ℚ × Row)) (t : ℚ) :
    List (List ℚ) :=
  build_design_matrix (prePostFit_x_design_info f data t) (preRows data t)

/-- `self.pre_y` of `PrePostFit` (src/causalpy/experiments.py:66). -/
def prePostFit_pre_y (f : Formula) (data : List (ℚ × Row)) (t : ℚ) :
    List ℚ :=
  (preRows data t).map (fun r => (r.getCol f.lhs).toRat)

/-- `self.post_X` of `PrePostFit` (src/causalpy/experiments.py:68-71):
the design metadata recorded from the pre-partition is reapplied, not
rebuilt, to the post-partition. -/
def prePostFit_post_X (f : Formula) (data : List (ℚ × Row)) (t : ℚ) :
    List (List ℚ) :=
  build_design_matrix (prePostFit_x_design_info f data t) (postRows data t)

/-- `self.post_y` of `PrePostFit` (src/causalpy/experiments.py:68-72). -/
def prePostFit_post_y (f : Formula) (data : List (ℚ × Row)) (t : ℚ) :
    List ℚ :=
  (postRows data t).map (fun r => (r.getCol f.lhs).toRat)

/-- The single `model.fit` call of `PrePostFit`
(src/causalpy/experiments.py:77-81): Bayesian models receive `COORDS`
with one coefficient label per design column and one observation index
per pre-intervention row; other models fit on `pre_X`, `pre_y` alone. -/
def prePostFit_fitCall (m : Model) (f : Formula) (data : List (ℚ × Row))
    (t : ℚ) : FitCall :=
  if m.kind = ModelClass.bayesian then
    FitCall.withCoords (prePostFit_pre_X f data t) (prePostFit_pre_y f data t)
      ⟨prePostFit_labels f data t,
       List.range (prePostFit_pre_X f data t).length⟩
  else
    FitCall.noCoords (prePostFit_pre_X f data t) (prePostFit_pre_y f data t)

/-- `self.pre_pred` of `PrePostFit` (src/causalpy/experiments.py:88). -/
def prePostFit_pre_pred (m : Model) (f : Formula) (data : List (ℚ × Row))
    (t : ℚ) : List ℚ :=
  (prePostFit_pre_X f data t).map m.predictRow

/-- `self.post_pred` of `PrePostFit` (src/causalpy/experiments.py:91). -/
def prePostFit_post_pred (m : Model) (f : Formula) (data : List (ℚ × Row))
    (t : ℚ) : List ℚ :=
  (prePostFit_post_X f data t).map m.predictRow

/-- `self.pre_impact` of `PrePostFit` (src/causalpy/experiments.py:92). -/
def prePostFit_pre_impact (m : Model) (f : Formula) (data : List (ℚ × Row))
    (t : ℚ) : List ℚ :=
  calculate_impact (prePostFit_pre_y f data t) (prePostFit_pre_pred m f data t)

/-- `self.post_impact` of `PrePostFit`
(src/causalpy/experiments.py:93-95). -/
def prePostFit_post_impact (m : Model) (f : Formula) (data : List (ℚ × Row))
    (t : ℚ) : List ℚ :=
  calculate_impact (prePostFit_post_y f data t) (prePostFit_post_pred m f data t)

/-- `self.post_impact_cumulative` of `PrePostFit`
(src/causalpy/experiments.py:96-98). -/
def prePostFit_post_impact_cumulative (m : Model) (f : Formula)
    (data : List (ℚ × Row)) (t : ℚ) : List ℚ :=
  calculate_cumulative_impact (prePostFit_post_impact m f data t)

/-- The `PrePostFitResults` dataclass
(src/causalpy/experiments.py:100-112). -/
structure PrePostFitResults where
  datapre : List (ℚ × Row)
  datapost : List (ℚ × Row)
  pre_y : List ℚ
  post_y : List ℚ
  pre_pred : List ℚ
  post_pred : List ℚ
  pre_impact : List ℚ
  post_impact : List ℚ
  post_impact_cumulative : List ℚ
  treatment_time : ℚ
  score : ℚ
deriving DecidableEq, Repr

/-- Whether the `PrePostFitResults` dataclass is declared frozen.
The source (src/causalpy/experiments.py:100) uses a bare `@dataclass`,
whose `frozen` option defaults to `False`. -/
def prePostFitResults_frozen : Bool := false

/-- Python attribute assignment `results.score = v` under dataclass
semantics: a frozen dataclass raises `FrozenInstanceError`, a non-frozen
one reassigns the field. -/
def setattr_results_score (r : PrePostFitResults) (v : ℚ) :
    Except PyError PrePostFitResults :=
  if prePostFitResults_frozen then
    Except.error (PyError.frozenInstanceError "cannot assign to field")
  else
    Except.ok { r with score := v }

/-- Modelled from the spec: `PrePostFitDataValidator._input_validation`
(`causalpy.data_validation`, not under src/). Spec §4.1: validates that
`data` is a non-empty tabular structure with a sortable index and that
`treatment_time` is comparable to it, failing with a data-validation
error otherwise; comparability is enforced here by the index type. -/
def prePostFit_input_validation (data : List (ℚ × Row)) (_t : ℚ) :
    Except PyError Unit :=
  if data.isEmpty then
    Except.error (PyError.dataException "data must be a non-empty tabular structure")
  else
    Except.ok ()

/-- `PrePostFit.__init__` (src/causalpy/experiments.py:41-126), as the
sequence: model-presence check from `ExperimentalDesign.__init__`
(src/causalpy/experiments.py:29-33), then input validation, then the
partition / matrix / fit / impact pipeline, ending in the results
snapshot and the fit call made. -/
def prePostFit_init (data : List (ℚ × Row)) (treatment_time : ℚ)
    (f : Formula) (model : Option Model) :
    Except PyError (PrePostFitResults × FitCall × List String) :=
  match model with
  | none => Except.error (PyError.valueError "fitting_model not set or passed.")
  | some m =>
    match prePostFit_input_validation data treatment_time with
    | Except.error e => Except.error e
    | Except.ok _ =>
      Except.ok
        ({ datapre := datapre data treatment_time
           datapost := datapost data treatment_time
           pre_y := prePostFit_pre_y f data treatment_time
           post_y := prePostFit_post_y f data treatment_time
           pre_pred := prePostFit_pre_pred m f data treatment_time
           post_pred := prePostFit_post_pred m f data treatment_time
           pre_impact := prePostFit_pre_impact m f data treatment_time
           post_impact := prePostFit_post_impact m f data treatment_time
           post_impact_cumulative :=
             prePostFit_post_impact_cumulative m f data treatment_time
           treatment_time := treatment_time
           score := m.scoreFn (prePostFit_pre_X f data treatment_time)
             (prePostFit_pre_y f data treatment_time) },
         prePostFit_fitCall m f data treatment_time,
         prePostFit_labels f data treatment_time)

/-- Minimum of a numpy array (`np.min`), defaulting to 0 on the empty
array (whose minimum is out of scope of the claims). -/
def npMin : List ℚ → ℚ
  | [] => 0
  | x :: xs => xs.foldl min x

/-- Maximum of a numpy array (`np.max`), defaulting to 0 on the empty
array. -/
def npMax : List ℚ → ℚ
  | [] => 0
  | x :: xs => xs.foldl max x

/-- `np.linspace(start, stop, num)`: `num` evenly spaced samples from
`start` to `stop` inclusive. -/
def linspace (start stop : ℚ) (num : ℕ) : List ℚ :=
  (List.range num).map
    (fun k : ℕ => start + (stop - start) * (k : ℚ) / ((num : ℚ) - 1))

/-- `self._x_design_info` of `PrePostNEGD`
(src/causalpy/expt_prepostnegd.py:95-97): design metadata from the full
dataset. -/
def negd_x_design_info (f : Formula) (data : List Row) : DesignInfo :=
  deriveDesignInfo f.rhs data

/-- `self.labels` of `PrePostNEGD` (src/causalpy/expt_prepostnegd.py:98). -/
def negd_labels (f : Formula) (data : List Row) : List String :=
  (negd_x_design_info f data).column_names

/-- `self.X` of `PrePostNEGD` (src/causalpy/expt_prepostnegd.py:99). -/
def negd_X (f : Formula) (data : List Row) : List (List ℚ) :=
  build_design_matrix (negd_x_design_info f data) data

/-- `self.y` of `PrePostNEGD` (src/causalpy/expt_prepostnegd.py:99). -/
def negd_y (f : Formula) (data : List Row) : List ℚ :=
  data.map (fun r => (r.getCol f.lhs).toRat)

/-- `self.pred_xi` of `PrePostNEGD`
(src/causalpy/expt_prepostnegd.py:114-118): 200 evenly spaced points over
the observed range of the pretreatment variable. -/
def negd_pred_xi (data : List Row) (pretreatment_variable_name : String) :
    List ℚ :=
  linspace (npMin (columnRat data pretreatment_variable_name))
    (npMax (columnRat data pretreatment_variable_name)) 200

/-- `x_pred_untreated` of `PrePostNEGD`
(src/causalpy/expt_prepostnegd.py:120-125): the synthetic grid with the
group indicator fixed at 0. -/
def negd_x_pred_untreated (data : List Row)
    (group_variable_name pretreatment_variable_name : String) : List Row :=
  (negd_pred_xi data pretreatment_variable_name).map
    (fun v => [(pretreatment_variable_name, Val.num v),
               (group_variable_name, Val.num 0)])

/-- `x_pred_treated` of `PrePostNEGD`
(src/causalpy/expt_prepostnegd.py:131-136): the synthetic grid with the
group indicator fixed at 1. -/
def negd_x_pred_treated (data : List Row)
    (group_variable_name pretreatment_variable_name : String) : List Row :=
  (negd_pred_xi data pretreatment_variable_name).map
    (fun v => [(pretreatment_variable_name, Val.num v),
               (group_variable_name, Val.num 1)])

/-- `new_x_untreated` of `PrePostNEGD`
(src/causalpy/expt_prepostnegd.py:126-128): the untreated grid
transformed through the fitted design metadata. -/
def negd_new_x_untreated (f : Formula) (data : List Row)
    (group_variable_name pretreatment_variable_name : String) :
    List (List ℚ) :=
  build_design_matrix (negd_x_design_info f data)
    (negd_x_pred_untreated data group_variable_name pretreatment_variable_name)

/-- `new_x_treated` of `PrePostNEGD`
(src/causalpy/expt_prepostnegd.py:137). -/
def negd_new_x_treated (f : Formula) (data : List Row)
    (group_variable_name pretreatment_variable_name : String) :
    List (List ℚ) :=
  build_design_matrix (negd_x_design_info f data)
    (negd_x_pred_treated data group_variable_name pretreatment_variable_name)

/-- The observable outcome of a successful `PrePostNEGD` construction. -/
structure NegdOutcome where
  labels : List String
  X : List (List ℚ)
  y : List ℚ
  fitCall : FitCall
  pred_xi : List ℚ
  x_pred_untreated : List Row
  x_pred_treated : List Row
  new_x_untreated : List (List ℚ)
  new_x_treated : List (List ℚ)
  treatment_effect_coeff : String
deriving DecidableEq, Repr

/-- `PrePostNEGD.__init__` (src/causalpy/expt_prepostnegd.py:78-143), as
the sequence: model-presence check from `ExperimentalDesign.__init__`,
then `_input_validation` (src/causalpy/expt_prepostnegd.py:145-153), then
matrix building, model-class dispatch
(src/causalpy/expt_prepostnegd.py:103-109), the synthetic prediction
grids, and the treatment-effect coefficient lookup. -/
def prePostNEGD_init (data : List Row) (f : Formula)
    (group_variable_name pretreatment_variable_name : String)
    (model : Option ModelClass) : Except PyError NegdOutcome :=
  match model with
  | none => Except.error (PyError.valueError "fitting_model not set or passed.")
  | some mk =>
    if _is_variable_dummy_coded (column data group_variable_name) = false then
      Except.error (PyError.dataException
        ("There must be 2 levels of the grouping variable "
          ++ group_variable_name ++ ". I.e. the treated and untreated."))
    else
      match mk with
      | ModelClass.sklearn =>
        Except.error (PyError.notImplementedError "Not implemented for OLS model")
      | ModelClass.other =>
        Except.error (PyError.valueError "Model type not recognized")
      | ModelClass.bayesian =>
        match _get_treatment_effect_coeff group_variable_name
            (negd_labels f data) with
        | none =>
          Except.error (PyError.nameError
            "Unable to find coefficient name for the treatment effect")
        | some coeff =>
          Except.ok
            { labels := negd_labels f data
              X := negd_X f data
              y := negd_y f data
              fitCall := FitCall.withCoords (negd_X f data) (negd_y f data)
                ⟨negd_labels f data, List.range (negd_X f data).length⟩
              pred_xi := negd_pred_xi data pretreatment_variable_name
              x_pred_untreated := negd_x_pred_untreated data
                group_variable_name pretreatment_variable_name
              x_pred_treated := negd_x_pred_treated data
                group_variable_name pretreatment_variable_name
              new_x_untreated := negd_new_x_untreated f data
                group_variable_name pretreatment_variable_name
              new_x_treated := negd_new_x_treated f data
                group_variable_name pretreatment_variable_name
              treatment_effect_coeff := coeff }

/-- A sample formula `y ~ 1 + x` for concrete evaluations. -/
def f0 : Formula := ⟨"y", [Term.intercept, Term.num "x"]⟩

/-- A sample formula `y ~ 1 + C(g)` with a categorical covariate. -/
def fCat : Formula := ⟨"y", [Term.intercept, Term.cat "g"]⟩

/-- A sample NEGD formula `post ~ 1 + C(group) + pre`. -/
def fNegd : Formula := ⟨"post", [Term.intercept, Term.cat "group", Term.num "pre"]⟩

/-- A sample NEGD formula without any group term, `post ~ 1 + pre`. -/
def fNoGroup : Formula := ⟨"post", [Term.intercept, Term.num "pre"]⟩

/-- A sample Bayesian-capable model with constant-zero predictions. -/
def m0 : Model := ⟨ModelClass.bayesian, fun _ => 0, fun _ _ => 0⟩

/-- A sample scikit-learn model with constant-zero predictions. -/
def mSk : Model := ⟨ModelClass.sklearn, fun _ => 0, fun _ _ => 0⟩

/-- A sample indexed dataset for `PrePostFit`. -/
def dataA : List (ℚ × Row) :=
  [(0, [("y", Val.num 1), ("x", Val.num 2)]),
   (1, [("y", Val.num 2), ("x", Val.num 3)]),
   (2, [("y", Val.num 3), ("x", Val.num 5)]),
   (3, [("y", Val.num 5), ("x", Val.num 8)])]

/-- A sample indexed dataset whose post-partition contains a categorical
level (`g = 2`) never observed in the pre-partition. -/
def dataB : List (ℚ × Row) :=
  [(0, [("y", Val.num 1), ("g", Val.num 0)]),
   (1, [("y", Val.num 2), ("g", Val.num 1)]),
   (2, [("y", Val.num 3), ("g", Val.num 2)])]

/-- A sample NEGD dataset with a dummy-coded group column. -/
def dataN : List Row :=
  [[("post", Val.num 1), ("group", Val.num 0), ("pre", Val.num 1)],
   [("post", Val.num 3), ("group", Val.num 1), ("pre", Val.num 2)],
   [("post", Val.num 2), ("group", Val.num 0), ("pre", Val.num 3)]]

/-- A sample NEGD dataset whose group column has three distinct values. -/
def dataBadGroup : List Row :=
  [[("post", Val.num 1), ("group", Val.num 0), ("pre", Val.num 1)],
   [("post", Val.num 2), ("group", Val.num 1), ("pre", Val.num 2)],
   [("post", Val.num 3), ("group", Val.num 2), ("pre", Val.num 3)]]

/-- A sample results record. -/
def sampleResults : PrePostFitResults :=
  ⟨[], [], [], [], [], [], [], [], [], 0, 0⟩

lemma uniqueFirstAux_mem {α : Type} [DecidableEq α] :
    ∀ (l seen : List α) (a : α),
      a ∈ uniqueFirstAux seen l ↔ a ∈ l ∧ a ∉ seen := by
  intro l
  induction l with
  | nil => intro seen a; simp [uniqueFirstAux]
  | cons x xs ih =>
    intro seen a
    by_cases hx : x ∈ seen
    · rw [uniqueFirstAux, if_pos hx, ih]
      constructor
      · rintro ⟨h1, h2⟩; exact ⟨List.mem_cons_of_mem _ h1, h2⟩
      · rintro ⟨h1, h2⟩
        rcases List.mem_cons.mp h1 with h1 | h1
        · exact absurd (h1 ▸ hx) h2
        · exact ⟨h1, h2⟩
    · rw [uniqueFirstAux, if_neg hx]
      constructor
      · intro h
        rcases List.mem_cons.mp h with h | h
        · exact ⟨h ▸ List.mem_cons_self _ _, h ▸ hx⟩
        · obtain ⟨h1, h2⟩ := (ih _ _).mp h
          refine ⟨List.mem_cons_of_mem _ h1, fun hc => h2 (List.mem_cons_of_mem _ hc)⟩
      · rintro ⟨h1, h2⟩
        by_cases hax : a = x
        · exact hax ▸ List.mem_cons_self _ _
        · rcases List.mem_cons.mp h1 with h1 | h1
          · exact absurd h1 hax
          · refine List.mem_cons_of_mem _ ((ih _ _).mpr ⟨h1, ?_⟩)
            intro hc
            rcases List.mem_cons.mp hc with hc | hc
            · exact hax hc
            · exact h2 hc

lemma uniqueFirst_mem {α : Type} [DecidableEq α] (l : List α) (a : α) :
    a ∈ uniqueFirst l ↔ a ∈ l := by
  simp [uniqueFirst, uniqueFirstAux_mem]

lemma uniqueFirstAux_nodup {α : Type} [DecidableEq α] :
    ∀ (l seen : List α), (uniqueFirstAux seen l).Nodup := by
  intro l
  induction l with
  | nil => intro seen; simp [uniqueFirstAux]
  | cons x xs ih =>
    intro seen
    by_cases hx : x ∈ seen
    · rw [uniqueFirstAux, if_pos hx]; exact ih seen
    · rw [uniqueFirstAux, if_neg hx]
      refine List.nodup_cons.mpr ⟨?_, ih _⟩
      intro hc
      exact ((uniqueFirstAux_mem _ _ _).mp hc).2 (List.mem_cons_self _ _)

lemma uniqueFirst_nodup {α : Type} [DecidableEq α] (l : List α) :
    (uniqueFirst l).Nodup :=
  uniqueFirstAux_nodup l []

lemma uniqueFirst_toFinset {α : Type} [DecidableEq α] (l : List α) :
    (uniqueFirst l).toFinset = l.toFinset := by
  ext a; simp [uniqueFirst_mem]

lemma uniqueFirst_length {α : Type} [DecidableEq α] (l : List α) :
    (uniqueFirst l).length = l.toFinset.card := by
  rw [← uniqueFirst_toFinset]
  exact (List.toFinset_card_of_nodup (uniqueFirst_nodup l)).symm

lemma cumsumFrom_length (acc : ℚ) (l : List ℚ) :
    (cumsumFrom acc l).length = l.length := by
  induction l generalizing acc with
  | nil => simp [cumsumFrom]
  | cons x xs ih => simp [cumsumFrom, ih]

lemma cumsumFrom_get :
    ∀ (l : List ℚ) (acc : ℚ) (i : ℕ) (h : i < (cumsumFrom acc l).length),
      (cumsumFrom acc l).get ⟨i, h⟩ = acc + (l.take (i + 1)).sum := by
  intro l
  induction l with
  | nil => intro acc i h; simp [cumsumFrom] at h
  | cons x xs ih =>
    intro acc i h
    cases i with
    | zero => simp [cumsumFrom]
    | succ n =>
      have h2 : n < (cumsumFrom (acc + x) xs).length := by
        simpa [cumsumFrom] using h
      have hstep : (cumsumFrom acc (x :: xs)).get ⟨n + 1, h⟩
          = (cumsumFrom (acc + x) xs).get ⟨n, h2⟩ := rfl
      rw [hstep, ih]
      simp [List.sum_cons]
      ring

/-- Claim C1: `PrePostFit` splits `data` into `datapre` (index <
`treatment_time`) and `datapost` (index ≥ `treatment_time`): membership
is characterized exactly by those index conditions, multiplicities add up
with no overlap, duplication or loss, and whenever the partitions are
non-empty, `max(datapre.index) < treatment_time ≤ min(datapost.index)`. -/
theorem prePostFit_partition {ι α : Type} [LinearOrder ι] [DecidableEq α]
    (data : List (ι × α)) (t : ι) :
    (∀ p, p ∈ datapre data t ↔ p ∈ data ∧ p.1 < t)
  ∧ (∀ p, p ∈ datapost data t ↔ p ∈ data ∧ t ≤ p.1)
  ∧ (∀ p, (datapre data t).count p + (datapost data t).count p = data.count p)
  ∧ (∀ m, ((datapre data t).map Prod.fst).maximum = some m → m < t)
  ∧ (∀ m, ((datapost data t).map Prod.fst).minimum = some m → t ≤ m) := by
  refine ⟨?_, ?_, ?_, ?_, ?_⟩
  · intro p; simp [datapre, List.mem_filter]
  · intro p; simp [datapost, List.mem_filter]
  · intro p
    by_cases hp : p.1 < t
    · have h1 : (datapre data t).count p = data.count p :=
        List.count_filter (by simp [hp])
      have h2 : (datapost data t).count p = 0 := by
        rw [List.count_eq_zero]
        simp [datapost, List.mem_filter]
        intro _
        exact hp
      omega
    · have h1 : (datapre data t).count p = 0 := by
        rw [List.count_eq_zero]
        simp [datapre, List.mem_filter]
        intro _
        exact not_lt.mp hp
      have h2 : (datapost data t).count p = data.count p :=
        List.count_filter (by simp [not_lt.mp hp])
      omega
  · intro m hm
    have hmem := List.maximum_mem hm
    rw [List.mem_map] at hmem
    obtain ⟨q, hq, rfl⟩ := hmem
    have := (List.mem_filter.mp hq).2
    exact of_decide_eq_true this
  · intro m hm
    have hmem := List.minimum_mem hm
    rw [List.mem_map] at hmem
    obtain ⟨q, hq, rfl⟩ := hmem
    have := (List.mem_filter.mp hq).2
    exact of_decide_eq_true this

/-- Witness for C1 on a concrete dataset split at `treatment_time = 2`. -/
theorem prePostFit_partition_witness :
    ((2 : ℚ), [("y", Val.num 3), ("x", Val.num 5)]) ∈ datapost dataA 2
  ∧ ((0 : ℚ), [("y", Val.num 1), ("x", Val.num 2)]) ∈ datapre dataA 2
  ∧ (∀ m, ((datapre dataA 2).map Prod.fst).maximum = some m → m < 2) := by
  refine ⟨?_, ?_, (prePostFit_partition dataA 2).2.2.2.1⟩
  · exact ((prePostFit_partition dataA 2).2.1 _).mpr (by refine ⟨by decide, by norm_num⟩)
  · exact ((prePostFit_partition dataA 2).1 _).mpr (by refine ⟨by decide, by norm_num⟩)

/-- Claim C6: `post_impact_cumulative` is obtained from `post_impact` by
the model's cumulative-impact operation, has the same length, and its
`i`-th entry is the sum of `post_impact[0..i]` inclusive, for all `i`. -/
theorem prePostFit_cumulative_impact (m : Model) (f : Formula)
    (data : List (ℚ × Row)) (t : ℚ) :
    prePostFit_post_impact_cumulative m f data t
      = calculate_cumulative_impact (prePostFit_post_impact m f data t)
  ∧ (prePostFit_post_impact_cumulative m f data t).length
      = (prePostFit_post_impact m f data t).length
  ∧ ∀ (i : ℕ) (h : i < (prePostFit_post_impact_cumulative m f data t).length),
      (prePostFit_post_impact_cumulative m f data t).get ⟨i, h⟩
        = ((prePostFit_post_impact m f data t).take (i + 1)).sum := by
  refine ⟨rfl, ?_, ?_⟩
  · exact cumsumFrom_length _ _
  · intro i h
    have := cumsumFrom_get (prePostFit_post_impact m f data t) 0 i h
    simpa [prePostFit_post_impact_cumulative, calculate_cumulative_impact,
      zero_add] using this

/-- Witness for C6 on a concrete dataset: the second entry of the
cumulative impact equals the sum of the first two impacts, namely 8. -/
theorem prePostFit_cumulative_impact_witness :
    (prePostFit_post_impact_cumulative m0 f0 dataA 2).get ⟨1, by decide⟩
      = ((prePostFit_post_impact m0 f0 dataA 2).take 2).sum
  ∧ ((prePostFit_post_impact m0 f0 dataA 2).take 2).sum = 8 := by
  refine ⟨(prePostFit_cumulative_impact m0 f0 dataA 2).2.2 1 (by decide), ?_⟩
  norm_num [prePostFit_post_impact, calculate_impact, prePostFit_post_y,
    prePostFit_post_pred, prePostFit_post_X, prePostFit_x_design_info,
    build_design_matrix, rowFor, deriveDesignInfo, postRows, preRows,
    datapre, datapost, dataA, f0, m0, Row.getCol, Val.toRat, ColSpec.eval,
    List.filter, List.find?]

/-- Counterexample to claim C9: `PrePostFitResults` is a plain (not
frozen) dataclass, so assigning to a field of a constructed record
succeeds and changes the field, rather than raising. -/
theorem results_mutation_counterexample :
    prePostFitResults_frozen = false
  ∧ setattr_results_score sampleResults 1
      = Except.ok { sampleResults with score := 1 }
  ∧ ({ sampleResults with score := 1 } : PrePostFitResults).score = 1
  ∧ sampleResults.score = 0 :=
  ⟨rfl, rfl, rfl, rfl⟩

/-- Claim C9 (amended): the `Results` record produced by `PrePostFit`
bundles the derived arrays and scalars, but it is declared as a plain
(non-frozen) dataclass: field reassignment after construction succeeds
and yields the updated record, so the snapshot is read-only by
convention only. -/
theorem results_plain_dataclass_mutable (r : PrePostFitResults) (v : ℚ) :
    prePostFitResults_frozen = false
  ∧ setattr_results_score r v = Except.ok { r with score := v } :=
  ⟨rfl, rfl⟩

/-- Claim C10: in both orchestrators the model-presence check of
`ExperimentalDesign.__init__` runs before data validation: with
`model=None`, construction fails with the configuration error
`"fitting_model not set or passed."` for every dataset, valid or not, and
a data-validation error is never observable with `model=None`. -/
theorem model_check_precedes_validation :
    (∀ (data : List (ℚ × Row)) (t : ℚ) (f : Formula),
      prePostFit_init data t f none
        = Except.error (PyError.valueError "fitting_model not set or passed."))
  ∧ (∀ (data : List Row) (f : Formula) (g p : String),
      prePostNEGD_init data f g p none
        = Except.error (PyError.valueError "fitting_model not set or passed."))
  ∧ (∀ (data : List (ℚ × Row)) (t : ℚ) (f : Formula) (msg : String),
      prePostFit_init data t f none
        ≠ Except.error (PyError.dataException msg))
  ∧ (∀ (data : List Row) (f : Formula) (g p : String) (msg : String),
      prePostNEGD_init data f g p none
        ≠ Except.error (PyError.dataException msg)) := by
  refine ⟨fun _ _ _ => rfl, fun _ _ _ _ => rfl, ?_, ?_⟩
  · intro data t f msg h
    rw [show prePostFit_init data t f none
      = Except.error (PyError.valueError "fitting_model not set or passed.")
      from rfl] at h
    simp at h
  · intro data f g p msg h
    rw [show prePostNEGD_init data f g p none
      = Except.error (PyError.valueError "fitting_model not set or passed.")
      from rfl] at h
    simp at h

/-- Witness for C10: with no model, construction on concretely invalid
data (an empty `PrePostFit` dataset, a three-level NEGD group column)
still fails with the configuration error, while the same data with a
model present fails with the data-validation error. -/
theorem model_check_precedes_validation_witness :
    prePostFit_init [] 0 f0 none
      = Except.error (PyError.valueError "fitting_model not set or passed.")
  ∧ prePostNEGD_init dataBadGroup fNegd "group" "pre" none
      = Except.error (PyError.valueError "fitting_model not set or passed.")
  ∧ prePostFit_init [] 0 f0 (some m0)
      = Except.error (PyError.dataException "data must be a non-empty tabular structure") := by
  refine ⟨model_check_precedes_validation.1 [] 0 f0,
    model_check_precedes_validation.2.1 dataBadGroup fNegd "group" "pre", rfl⟩

lemma containsSub_of_pref {hay needle : List Char}
    (h : needle.isPrefixOf hay = true) : containsSub hay needle = true := by
  cases hay with
  | nil => simp [containsSub, h]
  | cons x t => simp [containsSub, h]

lemma containsSub_append_middle :
    ∀ (a b c : List Char), containsSub (a ++ b ++ c) b = true := by
  intro a
  induction a with
  | nil =>
    intro b c
    simpa using containsSub_of_pref
      (List.isPrefixOf_iff_prefix.mpr (List.prefix_append b c))
  | cons x a2 ih =>
    intro b c
    show containsSub (x :: (a2 ++ b ++ c)) b = true
    simp only [containsSub, ih b c, Bool.or_true]

lemma strContains_append_middle (a b c : String) :
    strContains (a ++ b ++ c) b = true := by
  have h : (a ++ b ++ c).toList = a.toList ++ b.toList ++ c.toList := by
    simp [String.toList]
  rw [strContains, h]
  exact containsSub_append_middle _ _ _

lemma find?_first {α : Type} (p : α → Bool) :
    ∀ (l : List α) (a : α), l.find? p = some a →
      ∃ l1 l2, l = l1 ++ a :: l2 ∧ p a = true ∧ ∀ x ∈ l1, p x = false := by
  intro l
  induction l with
  | nil => intro a h; simp [List.find?] at h
  | cons x xs ih =>
    intro a h
    by_cases hx : p x = true
    · rw [List.find?_cons_of_pos _ hx] at h
      obtain rfl : x = a := Option.some.inj h
      exact ⟨[], xs, rfl, hx, by simp⟩
    · rw [List.find?_cons_of_neg _ hx] at h
      obtain ⟨l1, l2, heq, hp, hall⟩ := ih a h
      refine ⟨x :: l1, l2, by simp [heq], hp, ?_⟩
      intro y hy
      rcases List.mem_cons.mp hy with hy | hy
      · subst hy
        cases hpx : p y
        · rfl
        · exact absurd hpx hx
      · exact hall y hy

/-- Claim C3: the treatment-effect coefficient lookup returns the first
label, in label order, containing the group variable's name and not
containing ":"; it returns nothing (raising `NameError` in the
orchestrator) exactly when no label matches. In particular it returns
`"C(group)[T.1]"` on the spec's example labels and fails when only an
interaction label contains the name. -/
theorem negd_treatment_effect_lookup :
    (∀ (g : String) (labels : List String) (l : String),
      _get_treatment_effect_coeff g labels = some l →
        ∃ l1 l2, labels = l1 ++ l :: l2
          ∧ strContains l g = true ∧ strContains l ":" = false
          ∧ ∀ x ∈ l1, ¬(strContains x g = true ∧ strContains x ":" = false))
  ∧ (∀ (g : String) (labels : List String),
      _get_treatment_effect_coeff g labels = none ↔
        ∀ l ∈ labels, ¬(strContains l g = true ∧ strContains l ":" = false))
  ∧ _get_treatment_effect_coeff "group" ["Intercept", "C(group)[T.1]", "pre"]
      = some "C(group)[T.1]"
  ∧ _get_treatment_effect_coeff "group" ["Intercept", "C(group)[T.1]:pre"]
      = none
  ∧ (∀ (data : List Row) (f : Formula) (g p : String),
      _get_treatment_effect_coeff g (negd_labels f data) = none →
      _is_variable_dummy_coded (column data g) = true →
      prePostNEGD_init data f g p (some ModelClass.bayesian)
        = Except.error (PyError.nameError
            "Unable to find coefficient name for the treatment effect")) := by
  refine ⟨?_, ?_, by decide, by decide, ?_⟩
  · intro g labels l h
    obtain ⟨l1, l2, heq, hp, hall⟩ := find?_first _ labels l h
    simp only [Bool.and_eq_true, Bool.not_eq_true'] at hp
    refine ⟨l1, l2, heq, hp.1, hp.2, ?_⟩
    rintro x hx ⟨hxg, hxc⟩
    have := hall x hx
    rw [hxg, hxc] at this
    simp at this
  · intro g labels
    simp [_get_treatment_effect_coeff, List.find?_eq_none]
  · intro data f g p hnone hval
    simp [prePostNEGD_init, hval, hnone]

/-- Witness for C3: on a concrete NEGD dataset with a formula containing
no group term, construction fails with the lookup error. -/
theorem negd_treatment_effect_lookup_witness :
    prePostNEGD_init dataN fNoGroup "group" "pre" (some ModelClass.bayesian)
      = Except.error (PyError.nameError
          "Unable to find coefficient name for the treatment effect") :=
  negd_treatment_effect_lookup.2.2.2.2 dataN fNoGroup "group" "pre"
    (by decide) (by decide)

lemma dummy_coded_iff (l : List Val) :
    _is_variable_dummy_coded l = true ↔
      l.toFinset = {Val.num 0, Val.num 1} ∨
      l.toFinset = {Val.boolean false, Val.boolean true} := by
  rw [_is_variable_dummy_coded]
  simp only [Bool.and_eq_true, beq_iff_eq, Bool.or_eq_true, List.all_eq_true]
  constructor
  · rintro ⟨hlen, hall | hall⟩
    · left
      have hsub : l.toFinset ⊆ {Val.num 0, Val.num 1} := by
        intro v hv
        rw [List.mem_toFinset] at hv
        have := hall v ((uniqueFirst_mem l v).mpr hv)
        simpa using this
      have hcard : l.toFinset.card = 2 := by
        rw [← uniqueFirst_length]; exact hlen
      exact Finset.eq_of_subset_of_card_le hsub (by
        rw [hcard]
        exact (Finset.card_insert_le _ _).trans (by simp))
    · right
      have hsub : l.toFinset ⊆ {Val.boolean false, Val.boolean true} := by
        intro v hv
        rw [List.mem_toFinset] at hv
        have := hall v ((uniqueFirst_mem l v).mpr hv)
        simpa using this
      have hcard : l.toFinset.card = 2 := by
        rw [← uniqueFirst_length]; exact hlen
      exact Finset.eq_of_subset_of_card_le hsub (by
        rw [hcard]
        exact (Finset.card_insert_le _ _).trans (by simp))
  · rintro (heq | heq)
    · have hlen : (uniqueFirst l).length = 2 := by
        rw [uniqueFirst_length, heq]
        exact Finset.card_pair (by decide)
      refine ⟨hlen, Or.inl ?_⟩
      intro v hv
      have hmem : v ∈ l.toFinset := by
        rw [List.mem_toFinset]; exact (uniqueFirst_mem l v).mp hv
      rw [heq] at hmem
      simpa using hmem
    · have hlen : (uniqueFirst l).length = 2 := by
        rw [uniqueFirst_length, heq]
        exact Finset.card_pair (by decide)
      refine ⟨hlen, Or.inr ?_⟩
      intro v hv
      have hmem : v ∈ l.toFinset := by
        rw [List.mem_toFinset]; exact (uniqueFirst_mem l v).mp hv
      rw [heq] at hmem
      simpa using hmem

/-- Claim C5: `PrePostNEGD` group validation accepts a group column
exactly when its set of distinct values is `{0,1}` or `{False,True}`
(so any column with fewer or more than two distinct values is rejected),
and for every model class, construction fails with a data-validation
error whose message names the group column if and only if the column is
not so coded. -/
theorem negd_group_validation (data : List Row) (f : Formula)
    (g p : String) :
    (_is_variable_dummy_coded (column data g) = true ↔
      (column data g).toFinset = {Val.num 0, Val.num 1} ∨
      (column data g).toFinset = {Val.boolean false, Val.boolean true})
  ∧ ((column data g).toFinset.card ≠ 2 →
      _is_variable_dummy_coded (column data g) = false)
  ∧ (∀ mk : ModelClass,
      (∃ msg, prePostNEGD_init data f g p (some mk)
          = Except.error (PyError.dataException msg)
        ∧ strContains msg g = true)
       ↔ _is_variable_dummy_coded (column data g) = false) := by
  refine ⟨dummy_coded_iff _, ?_, ?_⟩
  · intro hcard
    by_contra h
    rw [Bool.not_eq_false] at h
    rcases (dummy_coded_iff _).mp h with heq | heq <;> rw [heq] at hcard <;>
      exact hcard (Finset.card_pair (by decide))
  · intro mk
    constructor
    · rintro ⟨msg, hinit, -⟩
      by_contra hne
      rw [Bool.not_eq_false] at hne
      cases mk with
      | bayesian =>
        cases hcoeff : _get_treatment_effect_coeff g (negd_labels f data) with
        | none => simp [prePostNEGD_init, hne, hcoeff] at hinit
        | some c => simp [prePostNEGD_init, hne, hcoeff] at hinit
      | sklearn => simp [prePostNEGD_init, hne] at hinit
      | other => simp [prePostNEGD_init, hne] at hinit
    · intro hfalse
      refine ⟨"There must be 2 levels of the grouping variable " ++ g
          ++ ". I.e. the treated and untreated.", ?_, ?_⟩
      · simp [prePostNEGD_init, hfalse]
      · exact strContains_append_middle _ _ _

/-- Witness for C5: the three-level group column is rejected with a
data-validation error naming the column, while the dummy-coded column of
the valid dataset has distinct-value set exactly `{0,1}`. -/
theorem negd_group_validation_witness :
    (∃ msg, prePostNEGD_init dataBadGroup fNegd "group" "pre"
        (some ModelClass.bayesian)
        = Except.error (PyError.dataException msg)
      ∧ strContains msg "group" = true)
  ∧ ((column dataN "group").toFinset = {Val.num 0, Val.num 1} ∨
     (column dataN "group").toFinset = {Val.boolean false, Val.boolean true}) := by
  constructor
  · exact ((negd_group_validation dataBadGroup fNegd "group" "pre").2.2
      ModelClass.bayesian).mpr (by decide)
  · exact (negd_group_validation dataN fNegd "group" "pre").1.mp (by decide)

lemma mem_build_design_matrix_length (di : DesignInfo) (df : List Row) :
    ∀ row ∈ build_design_matrix di df, row.length = di.column_names.length := by
  intro row hrow
  rw [build_design_matrix] at hrow
  obtain ⟨r, _, rfl⟩ := List.mem_map.mp hrow
  simp [rowFor, DesignInfo.column_names]

lemma getCol_pair_fst (p g : String) (v w : Val) :
    Row.getCol [(p, v), (g, w)] p = v := by
  unfold Row.getCol
  rw [List.find?_cons_of_pos _ (by simp)]

lemma getCol_pair_snd (p g : String) (v w : Val) (hpg : p ≠ g) :
    Row.getCol [(p, v), (g, w)] g = w := by
  unfold Row.getCol
  rw [List.find?_cons_of_neg _ (by simp [hpg]), List.find?_cons_of_pos _ (by simp)]

lemma linspace_length (a b : ℚ) (n : ℕ) : (linspace a b n).length = n := by
  simp [linspace]

lemma linspace_get (a b : ℚ) (n i : ℕ) (h : i < (linspace a b n).length) :
    (linspace a b n).get ⟨i, h⟩ = a + (b - a) * i / ((n : ℚ) - 1) := by
  unfold linspace at h ⊢
  rw [List.get_eq_getElem, List.getElem_map, List.getElem_range]

/-- Claim C2: the covariate design metadata of `PrePostFit` is recorded
from the pre-partition only and is reapplied, not rebuilt, to the
post-partition: `pre_X` and `post_X` are both generated column-for-column
from that one metadata object, so every row of `post_X` has the same
column count as every row of `pre_X` (the number of recorded labels), and
the `j`-th entry of any generated row is evaluated from the `j`-th
recorded column spec — including categorical encodings, which depend only
on levels observed in the pre-partition. -/
theorem prePostFit_design_reapplication (f : Formula)
    (data : List (ℚ × Row)) (t : ℚ) :
    prePostFit_x_design_info f data t = deriveDesignInfo f.rhs (preRows data t)
  ∧ prePostFit_pre_X f data t
      = (preRows data t).map (rowFor (prePostFit_x_design_info f data t))
  ∧ prePostFit_post_X f data t
      = (postRows data t).map (rowFor (prePostFit_x_design_info f data t))
  ∧ (∀ row ∈ prePostFit_pre_X f data t,
      row.length = (prePostFit_labels f data t).length)
  ∧ (∀ row ∈ prePostFit_post_X f data t,
      row.length = (prePostFit_labels f data t).length)
  ∧ (∀ (r : Row) (j : ℕ),
      (rowFor (prePostFit_x_design_info f data t) r).get? j
        = ((prePostFit_x_design_info f data t).column_specs.get? j).map
            (fun cs => cs.eval r)) := by
  refine ⟨rfl, rfl, rfl, ?_, ?_, ?_⟩
  · exact mem_build_design_matrix_length _ _
  · exact mem_build_design_matrix_length _ _
  · intro r j
    exact List.get?_map _ _ _

/-- Witness for C2 on a dataset whose post-partition holds a categorical
level (`g = 2`) never seen pre-intervention: the post row is still
encoded with the two pre-recorded columns, as `[1, 0]`. -/
theorem prePostFit_design_reapplication_witness :
    (∀ row ∈ prePostFit_post_X fCat dataB 2,
      row.length = (prePostFit_labels fCat dataB 2).length)
  ∧ prePostFit_post_X fCat dataB 2 = [[1, 0]]
  ∧ prePostFit_labels fCat dataB 2 = ["Intercept", "C(g)[T.1]"] := by
  refine ⟨(prePostFit_design_reapplication fCat dataB 2).2.2.2.2.1, ?_, ?_⟩
  · decide
  · decide

/-- Claim C8: the single `PrePostFit` fit call is dispatched on the model
capability tag: a Bayesian-tagged model receives the pre-intervention
matrices plus coordinates with one label per design column and one index
per pre-intervention observation, while any other model receives only the
pre-intervention matrices. -/
theorem prePostFit_fit_dispatch (m : Model) (f : Formula)
    (data : List (ℚ × Row)) (t : ℚ) :
    (m.kind = ModelClass.bayesian →
      prePostFit_fitCall m f data t
        = FitCall.withCoords (prePostFit_pre_X f data t)
            (prePostFit_pre_y f data t)
            ⟨prePostFit_labels f data t, List.range (datapre data t).length⟩)
  ∧ (m.kind ≠ ModelClass.bayesian →
      prePostFit_fitCall m f data t
        = FitCall.noCoords (prePostFit_pre_X f data t)
            (prePostFit_pre_y f data t))
  ∧ (prePostFit_pre_X f data t).length = (datapre data t).length
  ∧ (prePostFit_labels f data t).length
      = (prePostFit_x_design_info f data t).column_specs.length := by
  have hlen : (prePostFit_pre_X f data t).length = (datapre data t).length := by
    simp [prePostFit_pre_X, build_design_matrix, preRows]
  refine ⟨?_, ?_, hlen, by simp [prePostFit_labels, DesignInfo.column_names]⟩
  · intro h
    rw [prePostFit_fitCall, if_pos h, hlen]
  · intro h
    rw [prePostFit_fitCall, if_neg h]

/-- Witness for C8: the Bayesian sample model is fitted with coordinates,
the scikit-learn sample model without. -/
theorem prePostFit_fit_dispatch_witness :
    prePostFit_fitCall m0 f0 dataA 2
      = FitCall.withCoords (prePostFit_pre_X f0 dataA 2)
          (prePostFit_pre_y f0 dataA 2)
          ⟨prePostFit_labels f0 dataA 2, List.range (datapre dataA 2).length⟩
  ∧ prePostFit_fitCall mSk f0 dataA 2
      = FitCall.noCoords (prePostFit_pre_X f0 dataA 2)
          (prePostFit_pre_y f0 dataA 2) :=
  ⟨(prePostFit_fit_dispatch m0 f0 dataA 2).1 rfl,
   (prePostFit_fit_dispatch mSk f0 dataA 2).2.1 (by decide)⟩

/-- Claim C4: `PrePostNEGD` construction dispatches on model capability:
a Bayesian-capable model is fitted with coordinate labels (one per
coefficient, one per observation of the full dataset), a scikit-learn
model fails with the missing-capability error, and any other model fails
with the configuration error. -/
theorem negd_model_dispatch (data : List Row) (f : Formula) (g p : String)
    (hval : _is_variable_dummy_coded (column data g) = true) :
    (∀ coeff, _get_treatment_effect_coeff g (negd_labels f data) = some coeff →
      ∃ out, prePostNEGD_init data f g p (some ModelClass.bayesian)
          = Except.ok out
        ∧ out.fitCall = FitCall.withCoords (negd_X f data) (negd_y f data)
            ⟨negd_labels f data, List.range data.length⟩
        ∧ out.treatment_effect_coeff = coeff)
  ∧ prePostNEGD_init data f g p (some ModelClass.sklearn)
      = Except.error (PyError.notImplementedError "Not implemented for OLS model")
  ∧ prePostNEGD_init data f g p (some ModelClass.other)
      = Except.error (PyError.valueError "Model type not recognized")
  ∧ (negd_X f data).length = data.length := by
  have hX : (negd_X f data).length = data.length := by
    simp [negd_X, build_design_matrix]
  refine ⟨?_, by simp [prePostNEGD_init, hval], by simp [prePostNEGD_init, hval], hX⟩
  intro coeff hcoeff
  refine ⟨{ labels := negd_labels f data
            X := negd_X f data
            y := negd_y f data
            fitCall := FitCall.withCoords (negd_X f data) (negd_y f data)
              ⟨negd_labels f data, List.range (negd_X f data).length⟩
            pred_xi := negd_pred_xi data p
            x_pred_untreated := negd_x_pred_untreated data g p
            x_pred_treated := negd_x_pred_treated data g p
            new_x_untreated := negd_new_x_untreated f data g p
            new_x_treated := negd_new_x_treated f data g p
            treatment_effect_coeff := coeff }, ?_, ?_, rfl⟩
  · simp [prePostNEGD_init, hval, hcoeff]
  · simp [hX]

/-- Witness for C4 on a concrete valid NEGD dataset: the Bayesian model
class yields a fit call with coordinates over the three observations, and
the scikit-learn model class fails with the missing-capability error. -/
theorem negd_model_dispatch_witness :
    (∃ out, prePostNEGD_init dataN fNegd "group" "pre"
        (some ModelClass.bayesian) = Except.ok out
      ∧ out.fitCall = FitCall.withCoords (negd_X fNegd dataN) (negd_y fNegd dataN)
          ⟨negd_labels fNegd dataN, List.range dataN.length⟩
      ∧ out.treatment_effect_coeff = "C(group)[T.1]")
  ∧ prePostNEGD_init dataN fNegd "group" "pre" (some ModelClass.sklearn)
      = Except.error (PyError.notImplementedError "Not implemented for OLS model") := by
  obtain ⟨h1, h2, h3, h4⟩ :=
    negd_model_dispatch dataN fNegd "group" "pre" (by decide)
  exact ⟨h1 "C(group)[T.1]" (by decide), h2⟩

/-- Claim C7: `PrePostNEGD` builds exactly two synthetic 200-point
prediction grids in the pretreatment variable, spanning exactly
`[min, max]` of its observed values with uniform spacing, one with the
group indicator fixed at 0 and one fixed at 1, each transformed through
the design metadata fitted on the full dataset. -/
theorem negd_prediction_grids (data : List Row) (f : Formula)
    (g p : String) (hpg : p ≠ g) :
    (negd_pred_xi data p).length = 200
  ∧ (∀ h0 : 0 < (negd_pred_xi data p).length,
      (negd_pred_xi data p).get ⟨0, h0⟩ = npMin (columnRat data p))
  ∧ (∀ h199 : 199 < (negd_pred_xi data p).length,
      (negd_pred_xi data p).get ⟨199, h199⟩ = npMax (columnRat data p))
  ∧ (∀ (k : ℕ) (hk1 : k + 1 < (negd_pred_xi data p).length)
       (hk : k < (negd_pred_xi data p).length),
      (negd_pred_xi data p).get ⟨k + 1, hk1⟩ - (negd_pred_xi data p).get ⟨k, hk⟩
        = (npMax (columnRat data p) - npMin (columnRat data p)) / 199)
  ∧ (negd_x_pred_untreated data g p).length = 200
  ∧ (negd_x_pred_treated data g p).length = 200
  ∧ (∀ r ∈ negd_x_pred_untreated data g p, r.getCol g = Val.num 0
      ∧ ∃ v ∈ negd_pred_xi data p, r.getCol p = Val.num v)
  ∧ (∀ r ∈ negd_x_pred_treated data g p, r.getCol g = Val.num 1
      ∧ ∃ v ∈ negd_pred_xi data p, r.getCol p = Val.num v)
  ∧ negd_new_x_untreated f data g p
      = build_design_matrix (negd_x_design_info f data)
          (negd_x_pred_untreated data g p)
  ∧ negd_new_x_treated f data g p
      = build_design_matrix (negd_x_design_info f data)
          (negd_x_pred_treated data g p)
  ∧ (∀ row ∈ negd_new_x_untreated f data g p,
      row.length = (negd_labels f data).length)
  ∧ (∀ row ∈ negd_new_x_treated f data g p,
      row.length = (negd_labels f data).length) := by
  refine ⟨linspace_length _ _ _, ?_, ?_, ?_, ?_, ?_, ?_, ?_, rfl, rfl, ?_, ?_⟩
  · intro h0
    show (linspace (npMin (columnRat data p)) (npMax (columnRat data p))
        200).get ⟨0, h0⟩ = npMin (columnRat data p)
    rw [linspace_get]
    simp
  · intro h199
    show (linspace (npMin (columnRat data p)) (npMax (columnRat data p))
        200).get ⟨199, h199⟩ = npMax (columnRat data p)
    rw [linspace_get]
    push_cast
    norm_num
  · intro k hk1 hk
    show (linspace (npMin (columnRat data p)) (npMax (columnRat data p))
          200).get ⟨k + 1, hk1⟩
        - (linspace (npMin (columnRat data p)) (npMax (columnRat data p))
          200).get ⟨k, hk⟩
        = (npMax (columnRat data p) - npMin (columnRat data p)) / 199
    rw [linspace_get, linspace_get]
    push_cast
    have h199 : ((200 : ℚ) - 1) = 199 := by norm_num
    rw [h199]
    ring
  · simp [negd_x_pred_untreated, linspace_length, negd_pred_xi]
  · simp [negd_x_pred_treated, linspace_length, negd_pred_xi]
  · intro r hr
    obtain ⟨v, hv, rfl⟩ := List.mem_map.mp hr
    exact ⟨getCol_pair_snd _ _ _ _ hpg, v, hv, getCol_pair_fst _ _ _ _⟩
  · intro r hr
    obtain ⟨v, hv, rfl⟩ := List.mem_map.mp hr
    exact ⟨getCol_pair_snd _ _ _ _ hpg, v, hv, getCol_pair_fst _ _ _ _⟩
  · exact mem_build_design_matrix_length _ _
  · exact mem_build_design_matrix_length _ _

/-- Witness for C7 on the concrete NEGD dataset: the grid has 200 points
and the untreated grid fixes the group indicator at 0. -/
theorem negd_prediction_grids_witness :
    (negd_pred_xi dataN "pre").length = 200
  ∧ (∀ r ∈ negd_x_pred_untreated dataN "group" "pre",
      r.getCol "group" = Val.num 0) := by
  obtain ⟨h1, h2, h3, h4, h5, h6, h7, h8, h9, h10, h11, h12⟩ :=
    negd_prediction_grids dataN fNegd "group" "pre" (by decide)
  exact ⟨h1, fun r hr => (h7 r hr).1⟩

end CausalPy
